/-
Verification of the product comparison and recommendation engine
(logic_blocks/comparison_logic.py and the comparison-specific methods of
agents/comparison_agent.py), shallowly embedded in Lean 4.

Python strings are modelled as Lean `String` (lists of code points);
Python `str.lower` is modelled per-character with `Char.toLower`
(identical on ASCII, which is all the engine's literals use);
Python set objects are modelled as `Finset String`; Python's float
division in the Jaccard similarity is modelled as exact division in ℚ;
Python `int(...)` of a digit-only string is modelled by `natOfDigits`,
and its failure on an empty string by `Option`/`Except`.
-/
import Mathlib

namespace CompareEngine

/-- Python `s.lower()`, per code point (ASCII-faithful). -/
def pyLower (s : String) : String :=
  String.mk (s.toList.map Char.toLower)

/-- Python's substring test `needle in hay`. -/
def pyContains (hay needle : String) : Bool :=
  (List.range (hay.toList.length + 1)).any fun i =>
    needle.toList.isPrefixOf (hay.toList.drop i)

/-- The ASCII digits of a string, in order: `[c for c in s if c in '0123456789']`. -/
def digitsOf (s : String) : List Char :=
  s.toList.filter Char.isDigit

/-- Base-10 value of a list of ASCII digit characters (Python `int` on a
nonempty digit string). -/
def natOfDigits (ds : List Char) : Nat :=
  ds.foldl (fun n c => 10 * n + (c.toNat - 48)) 0

/-- `_extract_price`: keep digits, parse, `0` if no digit survives. -/
def extractPrice (s : String) : Nat :=
  let ds := digitsOf s
  if ds.isEmpty then 0 else natOfDigits ds

/-- Python `int(''.join(c for c in s if c in '0123456789'))` with NO guard:
`none` models the `ValueError` raised by `int('')`. -/
def parseIntStrict (s : String) : Option Nat :=
  let ds := digitsOf s
  if ds.isEmpty then none else some (natOfDigits ds)

/-- Concentration extraction: digits of the first 3 characters;
`none` models the `ValueError` raised by `int('')`. -/
def extractConc (s : String) : Option Nat :=
  let ds := (s.toList.take 3).filter Char.isDigit
  if ds.isEmpty then none else some (natOfDigits ds)

/-- The `try/except` block of `compare_products`: both concentrations are
reset to 0 if either extraction raises. -/
def concPair (sa sb : String) : Nat × Nat :=
  match extractConc sa, extractConc sb with
  | some x, some y => (x, y)
  | _, _ => (0, 0)

/-- Python `abs(m - n)` on integers, for natural inputs. -/
def intAbsDiff (m n : Nat) : Nat :=
  ((m : Int) - (n : Int)).natAbs

/-- Python `str.split(sep)` on a single-character separator, over code
points; always returns at least one (possibly empty) piece. -/
def splitCh (sep : Char) : List Char → List (List Char)
  | [] => [[]]
  | c :: cs =>
    match splitCh sep cs with
    | [] => if c = sep then [[], []] else [[c]]
    | h :: t => if c = sep then [] :: h :: t else (c :: h) :: t

/-- Python `s.split(',')`. -/
def pySplit (s : String) : List String :=
  (splitCh ',' s.toList).map String.mk

/-- `s.lower().replace(' ', '')` as a character list. -/
def normChars (s : String) : List Char :=
  (s.toList.map Char.toLower).filter (fun c => ¬ c = ' ')

/-- The token list `s.lower().replace(' ', '').split(',')`. -/
def pyTokens (s : String) : List String :=
  (splitCh ',' (normChars s)).map String.mk

/-- The Python set `set(s.lower().replace(' ', '').split(','))`. -/
def tokenSet (s : String) : Finset String :=
  (pyTokens s).toFinset

/-- `_analyze_skin_type_overlap`. -/
def analyzeSkinTypeOverlap (sa sb : String) : String :=
  let ta := tokenSet sa
  let tb := tokenSet sb
  let overlap := ta ∩ tb
  if pyContains (pyLower sb) "all" || pyContains (pyLower sa) "all" then
    "One product suits all skin types"
  else if overlap.card = 0 then
    "Different target skin types"
  else if overlap.card = ta.card ∧ overlap.card = tb.card then
    "Identical skin type targeting"
  else
    "Partial overlap in skin types"

/-- The Jaccard similarity `len(overlap) / len(total)` of
`_calculate_ingredient_overlap`, as an exact rational. -/
def jaccard (sa sb : String) : ℚ :=
  ((tokenSet sa ∩ tokenSet sb).card : ℚ) / ((tokenSet sa ∪ tokenSet sb).card : ℚ)

/-- `_calculate_ingredient_overlap`. -/
def calculateIngredientOverlap (sa sb : String) : String :=
  if (tokenSet sa ∪ tokenSet sb).card = 0 then
    "Unknown"
  else if jaccard sa sb > 7/10 then
    "High similarity"
  else if jaccard sa sb > 3/10 then
    "Medium similarity"
  else
    "Different formulations"

/-- `_determine_versatility` (note: the token counts use the RAW string,
split on commas without lower-casing or space-stripping). -/
def determineVersatility (sa sb : String) : String :=
  if pyContains (pyLower sb) "all" then "product_b"
  else if pyContains (pyLower sa) "all" then "product_a"
  else if (pySplit sa).length > (pySplit sb).length then "product_a"
  else "product_b"

/-- A product dict in which all six fields are present strings. -/
structure Product where
  name : String
  price : String
  concentration : String
  skin_type : String
  key_ingredients : String
  benefits : String
deriving DecidableEq, Repr

/-- The comparison dict built by `compare_products`. -/
structure Comparison where
  product_a_name : String
  product_b_name : String
  price_a : Nat
  price_b : Nat
  price_diff : Nat
  cheaper_product : String
  better_price : String
  concentration_a : Nat
  concentration_b : Nat
  concentration_diff : String
  higher_concentration : String
  skin_type_a : String
  skin_type_b : String
  skin_type_match : String
  ingredients_a : String
  ingredients_b : String
  ingredient_similarity : String
  more_versatile : String
deriving DecidableEq, Repr

/-- `compare_products` on fully-populated product dicts. -/
def compare (a b : Product) : Comparison :=
  let price_a := extractPrice a.price
  let price_b := extractPrice b.price
  let cp := concPair a.concentration b.concentration
  { product_a_name := a.name
    product_b_name := b.name
    price_a := price_a
    price_b := price_b
    price_diff := intAbsDiff price_a price_b
    cheaper_product := if price_a < price_b then a.name else b.name
    better_price := if price_a < price_b then "product_a" else "product_b"
    concentration_a := cp.1
    concentration_b := cp.2
    concentration_diff := toString (intAbsDiff cp.1 cp.2) ++ "%"
    higher_concentration := if cp.1 > cp.2 then a.name else b.name
    skin_type_a := a.skin_type
    skin_type_b := b.skin_type
    skin_type_match := analyzeSkinTypeOverlap a.skin_type b.skin_type
    ingredients_a := a.key_ingredients
    ingredients_b := b.key_ingredients
    ingredient_similarity := calculateIngredientOverlap a.key_ingredients b.key_ingredients
    more_versatile := determineVersatility a.skin_type b.skin_type }

/-- `ComparisonAgent._determine_winner`: two-point scoring over the
`better_price` and `more_versatile` side tags. -/
def determineWinner (c : Comparison) : String :=
  let score_a := (if c.better_price = "product_a" then 1 else 0)
               + (if c.more_versatile = "product_a" then 1 else 0)
  let score_b := (if c.better_price = "product_a" then 0 else 1)
               + (if c.more_versatile = "product_a" then 0 else 1)
  if score_a > score_b then c.product_a_name
  else if score_b > score_a then c.product_b_name
  else "Tie - Both excellent choices"

/-- `ComparisonAgent._recommend_for_skin_type`. -/
def recommendForSkinType (a b : Product) (st : String) : String :=
  let aCompat := pyContains (pyLower a.skin_type) (pyLower st)
  let bCompat := pyContains (pyLower b.skin_type) (pyLower st)
  if aCompat && !bCompat then a.name
  else if bCompat && !aCompat then b.name
  else "Both products suitable"

/-- `ComparisonAgent._recommend_by_effectiveness`: the whole body sits in
a bare `try/except`, so extraction failure yields the fallback label. -/
def recommendByEffectiveness (a b : Product) : String :=
  match extractConc a.concentration, extractConc b.concentration with
  | some ca, some cb => if ca ≥ cb then a.name else b.name
  | _, _ => "Both equally effective"

/-- A product dict in which any of the six keys may be absent (`none`
models a missing dict key). -/
structure PDict where
  name? : Option String
  price? : Option String
  concentration? : Option String
  skin_type? : Option String
  key_ingredients? : Option String
  benefits? : Option String
deriving DecidableEq, Repr

/-- View a fully-populated product as a dict. -/
def Product.toPDict (a : Product) : PDict :=
  ⟨some a.name, some a.price, some a.concentration,
   some a.skin_type, some a.key_ingredients, some a.benefits⟩

/-- `compare_products` on raw dicts: each subscript either yields the
value or raises `KeyError`; the concentration lookups sit inside the bare
`try/except` and so cannot raise. Lookups are sequenced in the order the
Python function first touches each key. -/
def compareE (a b : PDict) : Except String Comparison :=
  match a.price? with
  | none => .error "KeyError: price"
  | some aPrice =>
  match b.price? with
  | none => .error "KeyError: price"
  | some bPrice =>
  let cp :=
    match a.concentration?, b.concentration? with
    | some ca, some cb => concPair ca cb
    | _, _ => (0, 0)
  match a.name? with
  | none => .error "KeyError: name"
  | some aName =>
  match b.name? with
  | none => .error "KeyError: name"
  | some bName =>
  match a.skin_type? with
  | none => .error "KeyError: skin_type"
  | some aSkin =>
  match b.skin_type? with
  | none => .error "KeyError: skin_type"
  | some bSkin =>
  match a.key_ingredients? with
  | none => .error "KeyError: key_ingredients"
  | some aIng =>
  match b.key_ingredients? with
  | none => .error "KeyError: key_ingredients"
  | some bIng =>
  let price_a := extractPrice aPrice
  let price_b := extractPrice bPrice
  .ok {
    product_a_name := aName
    product_b_name := bName
    price_a := price_a
    price_b := price_b
    price_diff := intAbsDiff price_a price_b
    cheaper_product := if price_a < price_b then aName else bName
    better_price := if price_a < price_b then "product_a" else "product_b"
    concentration_a := cp.1
    concentration_b := cp.2
    concentration_diff := toString (intAbsDiff cp.1 cp.2) ++ "%"
    higher_concentration := if cp.1 > cp.2 then aName else bName
    skin_type_a := aSkin
    skin_type_b := bSkin
    skin_type_match := analyzeSkinTypeOverlap aSkin bSkin
    ingredients_a := aIng
    ingredients_b := bIng
    ingredient_similarity := calculateIngredientOverlap aIng bIng
    more_versatile := determineVersatility aSkin bSkin }

/-- `_recommend_for_skin_type` on raw dicts: the skin-type lookups happen
first; a name is looked up only on the branch that returns it. -/
def recommendForSkinTypeE (a b : PDict) (st : String) : Except String String :=
  match a.skin_type? with
  | none => .error "KeyError: skin_type"
  | some aSkin =>
  match b.skin_type? with
  | none => .error "KeyError: skin_type"
  | some bSkin =>
  let aCompat := pyContains (pyLower aSkin) (pyLower st)
  let bCompat := pyContains (pyLower bSkin) (pyLower st)
  if aCompat && !bCompat then
    match a.name? with
    | none => .error "KeyError: name"
    | some n => .ok n
  else if bCompat && !aCompat then
    match b.name? with
    | none => .error "KeyError: name"
    | some n => .ok n
  else .ok "Both products suitable"

/-- `_recommend_by_price` on raw dicts: no `try/except` and no
empty-digits guard, so `int('')` raises `ValueError` when a present price
string carries no digit. -/
def recommendByPriceE (a b : PDict) : Except String String :=
  match a.price? with
  | none => .error "KeyError: price"
  | some aPrice =>
  match parseIntStrict aPrice with
  | none => .error "ValueError"
  | some pa =>
  match b.price? with
  | none => .error "KeyError: price"
  | some bPrice =>
  match parseIntStrict bPrice with
  | none => .error "ValueError"
  | some pb =>
  if pa < pb then
    match a.name? with
    | none => .error "KeyError: name"
    | some n => .ok n
  else
    match b.name? with
    | none => .error "KeyError: name"
    | some n => .ok n

/-- `_recommend_by_effectiveness` on raw dicts: the bare `try/except`
absorbs missing keys and parse failures alike, including the name
lookups on the return line. -/
def recommendByEffectivenessE (a b : PDict) : String :=
  match a.concentration? with
  | none => "Both equally effective"
  | some sa =>
  match extractConc sa with
  | none => "Both equally effective"
  | some ca =>
  match b.concentration? with
  | none => "Both equally effective"
  | some sb =>
  match extractConc sb with
  | none => "Both equally effective"
  | some cb =>
  if ca ≥ cb then
    match a.name? with
    | none => "Both equally effective"
    | some n => n
  else
    match b.name? with
    | none => "Both equally effective"
    | some n => n

/-- The four scenario recommendations of `_generate_recommendations`. -/
structure RecommendationSet where
  for_oily_skin : String
  for_sensitive_skin : String
  for_budget_conscious : String
  for_maximum_results : String
deriving DecidableEq, Repr

/-- `_generate_recommendations` on raw dicts, in dict-literal order. -/
def recommendE (a b : PDict) : Except String RecommendationSet :=
  match recommendForSkinTypeE a b "oily" with
  | .error e => .error e
  | .ok ro =>
  match recommendForSkinTypeE a b "sensitive" with
  | .error e => .error e
  | .ok rs =>
  match recommendByPriceE a b with
  | .error e => .error e
  | .ok rp =>
  .ok ⟨ro, rs, rp, recommendByEffectivenessE a b⟩

/-- On fully-populated dicts the raw-dict engine never raises and agrees
with `compare`. -/
theorem compareE_toPDict (a b : Product) :
    compareE a.toPDict b.toPDict = .ok (compare a b) := rfl

/-- Splitting never produces the empty list of pieces (Python
`s.split(',')` yields at least `['']`). -/
theorem splitCh_ne_nil (sep : Char) (l : List Char) : splitCh sep l ≠ [] := by
  cases l with
  | nil => simp [splitCh]
  | cons c cs =>
    simp only [splitCh]
    cases splitCh sep cs with
    | nil => by_cases h : c = sep <;> simp [h]
    | cons h t => by_cases hc : c = sep <;> simp [hc]

/-- The token list of any string is nonempty. -/
theorem pyTokens_ne_nil (s : String) : pyTokens s ≠ [] := by
  unfold pyTokens
  intro h
  exact splitCh_ne_nil ',' (normChars s) (List.map_eq_nil_iff.mp h)

/-- The token set of any string is nonempty. -/
theorem tokenSet_nonempty (s : String) : (tokenSet s).Nonempty := by
  refine ⟨(pyTokens s).head (pyTokens_ne_nil s), ?_⟩
  unfold tokenSet
  exact List.mem_toFinset.mpr (List.head_mem (pyTokens_ne_nil s))

/-- The union of two token sets never has size zero: the `"Unknown"`
branch of `_calculate_ingredient_overlap` is dead code. -/
theorem unionCard_ne_zero (a b : String) :
    (tokenSet a ∪ tokenSet b).card ≠ 0 := by
  have h : (tokenSet a ∪ tokenSet b).Nonempty :=
    (tokenSet_nonempty a).mono Finset.subset_union_left
  exact Nat.pos_iff_ne_zero.mp (Finset.card_pos.mpr h)

/-- The Jaccard similarity is a ratio of a subset's size to its
superset's size. -/
theorem interCard_le_unionCard (a b : String) :
    (tokenSet a ∩ tokenSet b).card ≤ (tokenSet a ∪ tokenSet b).card :=
  Finset.card_le_card Finset.inter_subset_union

/-- Since the union of token sets is never empty, the ingredient label
is governed by the two similarity thresholds alone. -/
theorem label_eq_ite (a b : String) :
    calculateIngredientOverlap a b =
      if jaccard a b > 7/10 then "High similarity"
      else if jaccard a b > 3/10 then "Medium similarity"
      else "Different formulations" := by
  unfold calculateIngredientOverlap
  rw [if_neg (unionCard_ne_zero a b)]

/-- Evaluate the Jaccard similarity from the two set cardinalities. -/
theorem jaccard_eq_div (a b : String) (i u : Nat)
    (hi : (tokenSet a ∩ tokenSet b).card = i)
    (hu : (tokenSet a ∪ tokenSet b).card = u) :
    jaccard a b = (i : ℚ) / (u : ℚ) := by
  rw [jaccard, hi, hu]

/-- Product A of the spec's worked scenario. -/
def scenarioA : Product :=
  ⟨"A", "₹500", "10% X", "Oily", "X,Y", ""⟩

/-- Product B of the spec's worked scenario. -/
def scenarioB : Product :=
  ⟨"B", "₹800", "15% X", "All", "X,Z", ""⟩

/-- C1 counterexample: on the spec's scenario the Jaccard similarity is
1/3, which is strictly greater than the 0.3 threshold, so the engine
labels the ingredients "Medium similarity" — not the claimed
"Different formulations". -/
theorem c1_scenario_counterexample :
    jaccard scenarioA.key_ingredients scenarioB.key_ingredients = 1/3 ∧
    (compare scenarioA scenarioB).ingredient_similarity = "Medium similarity" ∧
    (compare scenarioA scenarioB).ingredient_similarity ≠ "Different formulations" := by
  have hj : jaccard "X,Y" "X,Z" = (1 : ℚ) / 3 := by
    rw [jaccard_eq_div "X,Y" "X,Z" 1 3 (by decide) (by decide)]
    norm_num
  have hl : calculateIngredientOverlap "X,Y" "X,Z" = "Medium similarity" := by
    rw [label_eq_ite, hj]
    norm_num
  have hp : (compare scenarioA scenarioB).ingredient_similarity =
      calculateIngredientOverlap "X,Y" "X,Z" := rfl
  refine ⟨hj, hp.trans hl, ?_⟩
  rw [hp, hl]
  simp

/-- C1 (amended): on the spec's scenario the comparison yields
price_a=500, price_b=800, price_diff=300, cheaper_product="A",
better_price="product_a", concentration_a=10, concentration_b=15,
higher_concentration="B", skin_type_match="One product suits all skin
types", ingredient_similarity="Medium similarity" (Jaccard 1/3 > 0.3),
more_versatile="product_b", and the winner scoring yields
"Tie - Both excellent choices". -/
theorem c1_scenario :
    (compare scenarioA scenarioB).price_a = 500 ∧
    (compare scenarioA scenarioB).price_b = 800 ∧
    (compare scenarioA scenarioB).price_diff = 300 ∧
    (compare scenarioA scenarioB).cheaper_product = "A" ∧
    (compare scenarioA scenarioB).better_price = "product_a" ∧
    (compare scenarioA scenarioB).concentration_a = 10 ∧
    (compare scenarioA scenarioB).concentration_b = 15 ∧
    (compare scenarioA scenarioB).higher_concentration = "B" ∧
    (compare scenarioA scenarioB).skin_type_match = "One product suits all skin types" ∧
    (compare scenarioA scenarioB).ingredient_similarity = "Medium similarity" ∧
    (compare scenarioA scenarioB).more_versatile = "product_b" ∧
    determineWinner (compare scenarioA scenarioB) = "Tie - Both excellent choices" := by
  have hj : jaccard "X,Y" "X,Z" = (1 : ℚ) / 3 := by
    rw [jaccard_eq_div "X,Y" "X,Z" 1 3 (by decide) (by decide)]
    norm_num
  have hl : (compare scenarioA scenarioB).ingredient_similarity = "Medium similarity" := by
    have hp : (compare scenarioA scenarioB).ingredient_similarity =
        calculateIngredientOverlap "X,Y" "X,Z" := rfl
    rw [hp, label_eq_ite, hj]
    norm_num
  refine ⟨by decide, by decide, by decide, by decide, by decide, by decide,
    by decide, by decide, by decide, hl, by decide, by decide⟩

/-- A well-formed product whose price string contains no digit. -/
def noDigitsPrice : Product :=
  ⟨"A", "Free", "10% X", "Oily", "X", ""⟩

/-- C2: the claim is right and the code is wrong. `_recommend_by_price`
inlines the digit extraction without the empty-digits guard of
`_extract_price` and without a `try/except`, so a present but digit-free
price string makes `int('')` raise `ValueError` — while the safe
extractor used by `compare_products` absorbs the same string into 0. -/
theorem c2_budget_raises_on_digit_free_price :
    recommendByPriceE noDigitsPrice.toPDict scenarioB.toPDict =
      Except.error "ValueError" ∧
    parseIntStrict "Free" = none ∧
    extractPrice "Free" = 0 ∧
    (compare noDigitsPrice scenarioB).price_a = 0 := by
  refine ⟨rfl, by decide, by decide, by decide⟩

/-- A dict lacking only the `concentration` key. -/
def missingConcA : PDict :=
  ⟨some "A", some "₹500", none, some "Oily", some "X,Y", some ""⟩

/-- A second dict lacking only the `concentration` key. -/
def missingConcB : PDict :=
  ⟨some "B", some "₹800", none, some "All", some "X,Z", some ""⟩

/-- C3 counterexample: with the required `concentration` key absent from
both records, `compare` and `recommend` do NOT raise the missing-key
error — the bare `except:` catches the `KeyError` and substitutes the
default 0 (resp. the fallback label). -/
theorem c3_counterexample_concentration_absorbed :
    missingConcA.concentration? = none ∧
    (compareE missingConcA missingConcB).toOption.isSome = true ∧
    (recommendE missingConcA missingConcB).toOption.isSome = true := by
  refine ⟨rfl, by decide, by decide⟩

/-- With both skin-type and both name keys present, the per-skin-type
recommendation never raises: every branch returns a value. -/
theorem recommendForSkinTypeE_ok (a b : PDict) (an bn sa sb : String)
    (han : a.name? = some an) (hbn : b.name? = some bn)
    (hsa : a.skin_type? = some sa) (hsb : b.skin_type? = some sb) (st : String) :
    recommendForSkinTypeE a b st = Except.ok
      (if pyContains (pyLower sa) (pyLower st) && !pyContains (pyLower sb) (pyLower st)
        then an
       else if pyContains (pyLower sb) (pyLower st) && !pyContains (pyLower sa) (pyLower st)
        then bn
       else "Both products suitable") := by
  unfold recommendForSkinTypeE
  simp only [hsa, hsb, han, hbn]
  split
  · rfl
  · split <;> rfl

/-- C3 (amended): `compare` propagates a missing-key failure exactly when
one of `name`, `price`, `skin_type`, `key_ingredients` is absent on
either side; `recommend` propagates the `skin_type` lookup failure, and,
with the other keys present, a missing `price` key makes it raise the
price `KeyError`; an absent `concentration` never propagates — `compare`
returns the same record with both concentrations defaulted to 0 and
`for_maximum_results` returns its fallback label — and the `benefits`
key is read by neither `compare` nor `recommend`. -/
theorem c3_missing_key_propagation :
    (∀ a b : PDict, (compareE a b).toOption = none ↔
      (a.name? = none ∨ b.name? = none ∨ a.price? = none ∨ b.price? = none ∨
       a.skin_type? = none ∨ b.skin_type? = none ∨
       a.key_ingredients? = none ∨ b.key_ingredients? = none)) ∧
    (∀ a b : PDict, a.skin_type? = none →
      recommendE a b = Except.error "KeyError: skin_type") ∧
    (∀ a b : Product, recommendE { a.toPDict with price? := none } b.toPDict =
      Except.error "KeyError: price") ∧
    (∀ a b : Product, compareE { a.toPDict with concentration? := none } b.toPDict =
      Except.ok { compare a b with
                  concentration_a := 0,
                  concentration_b := 0,
                  concentration_diff := "0%",
                  higher_concentration := b.name }) ∧
    (∀ a b : PDict, a.concentration? = none →
      recommendByEffectivenessE a b = "Both equally effective") ∧
    (∀ (a b : PDict) (x y : Option String),
      compareE { a with benefits? := x } { b with benefits? := y } = compareE a b ∧
      recommendE { a with benefits? := x } { b with benefits? := y } = recommendE a b) := by
  refine ⟨?_, ?_, ?_, ?_, ?_, ?_⟩
  · intro a b
    obtain ⟨an, ap, ac, as1, ai, ab1⟩ := a
    obtain ⟨bn, bp, bc, bs1, bi, bb1⟩ := b
    cases an <;> cases bn <;> cases ap <;> cases bp <;>
      cases as1 <;> cases bs1 <;> cases ai <;> cases bi <;>
      simp [compareE, Except.toOption]
  · intro a b h
    simp [recommendE, recommendForSkinTypeE, h]
  · intro a b
    have h1 := recommendForSkinTypeE_ok { a.toPDict with price? := none } b.toPDict
      a.name b.name a.skin_type b.skin_type rfl rfl rfl rfl "oily"
    have h2 := recommendForSkinTypeE_ok { a.toPDict with price? := none } b.toPDict
      a.name b.name a.skin_type b.skin_type rfl rfl rfl rfl "sensitive"
    have h3 : recommendByPriceE { a.toPDict with price? := none } b.toPDict =
        Except.error "KeyError: price" := rfl
    simp [recommendE, h1, h2, h3]
  · intro a b
    have hs : toString (intAbsDiff 0 0) ++ "%" = "0%" := rfl
    have h : compareE { a.toPDict with concentration? := none } b.toPDict =
        Except.ok { compare a b with
                    concentration_a := 0,
                    concentration_b := 0,
                    concentration_diff := toString (intAbsDiff 0 0) ++ "%",
                    higher_concentration := b.name } := rfl
    rw [h, hs]
  · intro a b h
    simp [recommendByEffectivenessE, h]
  · intro a b x y
    obtain ⟨an, ap, ac, as1, ai, ab1⟩ := a
    obtain ⟨bn, bp, bc, bs1, bi, bb1⟩ := b
    exact ⟨rfl, rfl⟩

/-- Witness for the amended C3: a concrete record missing `skin_type`
makes `recommend` raise the skin-type `KeyError`, and the concrete
records missing `concentration` get the fallback recommendation. -/
theorem c3_missing_key_propagation_witness :
    recommendE ⟨some "A", some "₹500", some "10%", none, some "X", some ""⟩
        missingConcB = Except.error "KeyError: skin_type" ∧
    recommendByEffectivenessE missingConcA missingConcB = "Both equally effective" :=
  ⟨c3_missing_key_propagation.2.1 _ _ rfl,
   c3_missing_key_propagation.2.2.2.2.1 missingConcA missingConcB rfl⟩

/-- `abs` of a difference with itself is zero. -/
theorem intAbsDiff_self (n : Nat) : intAbsDiff n n = 0 := by
  simp [intAbsDiff]

/-- The two concentrations extracted from equal strings are equal (both
succeed with the same value, or both default to 0). -/
theorem concPair_self (s : String) : (concPair s s).1 = (concPair s s).2 := by
  unfold concPair
  cases extractConc s <;> simp

/-- The token set of a string has nonzero cardinality. -/
theorem tokenSet_card_ne_zero (s : String) : (tokenSet s).card ≠ 0 :=
  Finset.card_ne_zero.mpr (tokenSet_nonempty s)

/-- A string compared with itself has Jaccard similarity exactly 1. -/
theorem jaccard_self (s : String) : jaccard s s = 1 := by
  rw [jaccard, Finset.inter_self, Finset.union_self]
  exact div_self (Nat.cast_ne_zero.mpr (tokenSet_card_ne_zero s))

/-- C4 counterexample: a product whose skin-type string contains "all",
compared with itself, is labelled by the "all" branch — not by the
claimed "Identical skin type targeting". -/
theorem c4_counterexample_all_skin :
    (compare scenarioB scenarioB).skin_type_match = "One product suits all skin types" ∧
    (compare scenarioB scenarioB).skin_type_match ≠ "Identical skin type targeting" := by
  refine ⟨by decide, by decide⟩

/-- C4 (amended): comparing any fully-populated product with itself
yields price_diff = 0, concentration_diff = "0%", ingredient_similarity
= "High similarity", and — provided the skin-type string does not
contain "all" (case-insensitively) — skin_type_match = "Identical skin
type targeting"; when it does contain "all", the "One product suits all
skin types" branch fires instead. -/
theorem c4_compare_self (a : Product) :
    (compare a a).price_diff = 0 ∧
    (compare a a).concentration_diff = "0%" ∧
    (compare a a).ingredient_similarity = "High similarity" ∧
    (pyContains (pyLower a.skin_type) "all" = false →
      (compare a a).skin_type_match = "Identical skin type targeting") ∧
    (pyContains (pyLower a.skin_type) "all" = true →
      (compare a a).skin_type_match = "One product suits all skin types") := by
  refine ⟨?_, ?_, ?_, ?_, ?_⟩
  · show intAbsDiff (extractPrice a.price) (extractPrice a.price) = 0
    exact intAbsDiff_self _
  · show toString (intAbsDiff (concPair a.concentration a.concentration).1
      (concPair a.concentration a.concentration).2) ++ "%" = "0%"
    rw [concPair_self, intAbsDiff_self]
    rfl
  · show calculateIngredientOverlap a.key_ingredients a.key_ingredients = _
    rw [label_eq_ite, jaccard_self]
    norm_num
  · intro h
    show analyzeSkinTypeOverlap a.skin_type a.skin_type = _
    unfold analyzeSkinTypeOverlap
    simp [h, Finset.inter_self,
      Finset.nonempty_iff_ne_empty.mp (tokenSet_nonempty a.skin_type)]
  · intro h
    show analyzeSkinTypeOverlap a.skin_type a.skin_type = _
    unfold analyzeSkinTypeOverlap
    simp [h]

/-- A concrete self-comparison discharging the no-"all" hypothesis of
the amended C4. -/
theorem c4_compare_self_witness :
    (compare scenarioA scenarioA).price_diff = 0 ∧
    (compare scenarioA scenarioA).concentration_diff = "0%" ∧
    (compare scenarioA scenarioA).ingredient_similarity = "High similarity" ∧
    (compare scenarioA scenarioA).skin_type_match = "Identical skin type targeting" :=
  ⟨(c4_compare_self scenarioA).1, (c4_compare_self scenarioA).2.1,
   (c4_compare_self scenarioA).2.2.1,
   (c4_compare_self scenarioA).2.2.2.1 (by decide)⟩

/-- C5: every price/concentration/versatility tie resolves to product_b
(the strict comparisons fall through to the `else` branch), and
product_a wins any of these fields only via strict inequality: the
better_price and more_versatile side tags require a strict win, and
cheaper_product / higher_concentration carry product_a's name exactly
when its price is strictly lower (resp. its concentration strictly
higher), falling to product_b's name otherwise. -/
theorem c5_ties_favor_product_b (a b : Product) :
    (extractPrice a.price = extractPrice b.price →
      (compare a b).cheaper_product = b.name ∧
      (compare a b).better_price = "product_b") ∧
    ((concPair a.concentration b.concentration).1 =
        (concPair a.concentration b.concentration).2 →
      (compare a b).higher_concentration = b.name) ∧
    (pyContains (pyLower a.skin_type) "all" = false →
      pyContains (pyLower b.skin_type) "all" = false →
      (pySplit a.skin_type).length = (pySplit b.skin_type).length →
      (compare a b).more_versatile = "product_b") ∧
    ((compare a b).better_price = "product_a" →
      extractPrice a.price < extractPrice b.price) ∧
    (pyContains (pyLower a.skin_type) "all" = false →
      pyContains (pyLower b.skin_type) "all" = false →
      (compare a b).more_versatile = "product_a" →
      (pySplit a.skin_type).length > (pySplit b.skin_type).length) ∧
    (extractPrice a.price ≥ extractPrice b.price →
      (compare a b).cheaper_product = b.name) ∧
    (extractPrice a.price < extractPrice b.price →
      (compare a b).cheaper_product = a.name) ∧
    ((concPair a.concentration b.concentration).1 ≤
        (concPair a.concentration b.concentration).2 →
      (compare a b).higher_concentration = b.name) ∧
    ((concPair a.concentration b.concentration).1 >
        (concPair a.concentration b.concentration).2 →
      (compare a b).higher_concentration = a.name) := by
  refine ⟨?_, ?_, ?_, ?_, ?_, ?_, ?_, ?_, ?_⟩
  · intro h
    constructor <;> simp [compare, h]
  · intro h
    simp [compare, h]
  · intro h1 h2 h3
    simp [compare, determineVersatility, h1, h2, h3]
  · intro h
    by_cases hlt : extractPrice a.price < extractPrice b.price
    · exact hlt
    · exfalso
      simp [compare, hlt] at h
  · intro h1 h2 h3
    by_cases hgt : (pySplit a.skin_type).length > (pySplit b.skin_type).length
    · exact hgt
    · exfalso
      simp [compare, determineVersatility, h1, h2, hgt] at h3
  · intro h
    simp [compare, not_lt.mpr h]
  · intro h
    simp [compare, h]
  · intro h
    simp [compare, not_lt.mpr h]
  · intro h
    simp [compare, h]

/-- A product tying with `tieB` on every compared dimension. -/
def tieA : Product := ⟨"TA", "₹5", "10%", "oily", "x", ""⟩

/-- A product tying with `tieA` on every compared dimension. -/
def tieB : Product := ⟨"TB", "5", "10x", "dry", "y", ""⟩

/-- A product with strictly higher concentration than `tieA`. -/
def effB : Product := ⟨"EB", "1", "15%", "oily", "x", ""⟩

/-- A concrete all-ties pair (every tied field resolves to product_b),
plus a strict concentration loss and a strict concentration win for the
first argument. -/
theorem c5_ties_favor_product_b_witness :
    (compare tieA tieB).cheaper_product = "TB" ∧
    (compare tieA tieB).better_price = "product_b" ∧
    (compare tieA tieB).higher_concentration = "TB" ∧
    (compare tieA tieB).more_versatile = "product_b" ∧
    (compare tieA effB).higher_concentration = "EB" ∧
    (compare effB tieA).higher_concentration = "EB" :=
  ⟨((c5_ties_favor_product_b tieA tieB).1 (by decide)).1,
   ((c5_ties_favor_product_b tieA tieB).1 (by decide)).2,
   (c5_ties_favor_product_b tieA tieB).2.1 (by decide),
   (c5_ties_favor_product_b tieA tieB).2.2.1 (by decide) (by decide) (by decide),
   (c5_ties_favor_product_b tieA effB).2.2.2.2.2.2.2.1 (by decide),
   (c5_ties_favor_product_b effB tieA).2.2.2.2.2.2.2.2 (by decide)⟩

/-- C6: `for_maximum_results` returns product_a's name exactly when the
concentration extracted from the first 3 characters of product_a's
string is ≥ product_b's (ties favor product_a), product_b's name
otherwise, and the fallback label whenever either extraction fails. -/
theorem c6_effectiveness_rule (a b : Product) :
    (∀ ca cb, extractConc a.concentration = some ca →
      extractConc b.concentration = some cb →
      recommendByEffectiveness a b = if ca ≥ cb then a.name else b.name) ∧
    (extractConc a.concentration = none ∨ extractConc b.concentration = none →
      recommendByEffectiveness a b = "Both equally effective") := by
  constructor
  · intro ca cb ha hb
    simp [recommendByEffectiveness, ha, hb]
  · intro h
    rcases h with h | h
    · simp [recommendByEffectiveness, h]
    · cases ha : extractConc a.concentration <;>
        simp [recommendByEffectiveness, h, ha]

/-- A product whose concentration's first 3 characters hold no digit. -/
def noConc : Product := ⟨"NC", "1", "N/A", "oily", "x", ""⟩

/-- Concrete instances of the C6 rule: a strict loser on concentration,
and a failed extraction. -/
theorem c6_effectiveness_rule_witness :
    recommendByEffectiveness tieA effB = "EB" ∧
    recommendByEffectiveness tieA noConc = "Both equally effective" := by
  constructor
  · have h := (c6_effectiveness_rule tieA effB).1 10 15 (by decide) (by decide)
    rw [h]
    norm_num
    rfl
  · exact (c6_effectiveness_rule tieA noConc).2 (Or.inr (by decide))

/-- C7: the ingredient label is governed by strict thresholds on the
Jaccard similarity of the lower-cased, space-stripped, comma-split token
sets; a similarity of exactly 7/10 falls in the "Medium similarity"
band, and the similarity always lies in [0, 1]. -/
theorem c7_jaccard_thresholds (a b : String) :
    (0 ≤ jaccard a b ∧ jaccard a b ≤ 1) ∧
    (jaccard a b > 7/10 → calculateIngredientOverlap a b = "High similarity") ∧
    (jaccard a b ≤ 7/10 → jaccard a b > 3/10 →
      calculateIngredientOverlap a b = "Medium similarity") ∧
    (jaccard a b ≤ 3/10 →
      calculateIngredientOverlap a b = "Different formulations") ∧
    (jaccard a b = 7/10 →
      calculateIngredientOverlap a b = "Medium similarity") := by
  refine ⟨⟨?_, ?_⟩, ?_, ?_, ?_, ?_⟩
  · rw [jaccard]
    positivity
  · rw [jaccard]
    apply div_le_one_of_le₀
    · exact_mod_cast interCard_le_unionCard a b
    · positivity
  · intro h
    rw [label_eq_ite, if_pos h]
  · intro h1 h2
    rw [label_eq_ite, if_neg (not_lt.mpr h1), if_pos h2]
  · intro h
    rw [label_eq_ite, if_neg (not_lt.mpr (h.trans (by norm_num))),
      if_neg (not_lt.mpr h)]
  · intro h
    rw [label_eq_ite, if_neg (not_lt.mpr (le_of_eq h)), if_pos (by rw [h]; norm_num)]

/-- Ten single-letter ingredient tokens. -/
def tenIngredients : String := "a,b,c,d,e,f,g,h,i,j"

/-- Seven of the ten tokens of `tenIngredients`. -/
def sevenIngredients : String := "a,b,c,d,e,f,g"

/-- A concrete pair sitting exactly on the 0.7 boundary: the label is
"Medium similarity", not "High similarity". -/
theorem c7_jaccard_thresholds_witness :
    jaccard tenIngredients sevenIngredients = 7/10 ∧
    calculateIngredientOverlap tenIngredients sevenIngredients = "Medium similarity" := by
  have hj : jaccard tenIngredients sevenIngredients = 7/10 := by
    rw [jaccard_eq_div _ _ 7 10 (by decide) (by decide)]
    norm_num
  exact ⟨hj, (c7_jaccard_thresholds tenIngredients sevenIngredients).2.2.2.2 hj⟩

/-- C8: both the skin-type analyzer and the ingredient analyzer return
the same label on (a, b) as on (b, a). -/
theorem c8_overlap_symmetric (a b : String) :
    analyzeSkinTypeOverlap a b = analyzeSkinTypeOverlap b a ∧
    calculateIngredientOverlap a b = calculateIngredientOverlap b a := by
  constructor
  · by_cases h1 : pyContains (pyLower a) "all" = true <;>
    by_cases h2 : pyContains (pyLower b) "all" = true <;>
      simp [analyzeSkinTypeOverlap, h1, h2, Finset.inter_comm, and_comm]
  · simp [calculateIngredientOverlap, jaccard, Finset.inter_comm, Finset.union_comm]

/-- C9: the "Unknown" branch of the ingredient analyzer is unreachable —
splitting any string on commas yields at least one token, so the union
of token sets is never empty; in particular two empty ingredient strings
tokenize to the singleton of the empty token, have Jaccard similarity 1,
and are labelled "High similarity". -/
theorem c9_unknown_unreachable :
    (∀ a b : String, (tokenSet a ∪ tokenSet b).card ≠ 0 ∧
      calculateIngredientOverlap a b ≠ "Unknown") ∧
    pyTokens "" = [""] ∧
    jaccard "" "" = 1 ∧
    calculateIngredientOverlap "" "" = "High similarity" := by
  refine ⟨fun a b => ⟨unionCard_ne_zero a b, ?_⟩, by decide, jaccard_self "", ?_⟩
  · rw [label_eq_ite]
    split
    · simp
    · split <;> simp
  · rw [label_eq_ite, jaccard_self]
    norm_num

/-- A comparison record whose product_a name collides with the tie
label, while both scoring fields designate product_a. -/
def degenerateComparison : Comparison :=
  { product_a_name := "Tie - Both excellent choices"
    product_b_name := "B"
    price_a := 0, price_b := 0, price_diff := 0
    cheaper_product := "B", better_price := "product_a"
    concentration_a := 0, concentration_b := 0, concentration_diff := "0%"
    higher_concentration := "B"
    skin_type_a := "", skin_type_b := "", skin_type_match := ""
    ingredients_a := "", ingredients_b := "", ingredient_similarity := ""
    more_versatile := "product_a" }

/-- C10 counterexample: when product_a's name is literally the tie
label and both fields designate product_a (same side, score 2 - 0), the
winner function still returns "Tie - Both excellent choices", so the
claimed "exactly when the sides differ" equivalence fails. -/
theorem c10_counterexample_tie_collision :
    determineWinner degenerateComparison = "Tie - Both excellent choices" ∧
    degenerateComparison.better_price = "product_a" ∧
    degenerateComparison.more_versatile = "product_a" := by
  refine ⟨by decide, rfl, rfl⟩

/-- C10 (amended): the winner depends only on better_price,
more_versatile and the two names; whenever the two side tags designate
different sides the tie label is returned; and the "exactly when"
equivalence holds provided neither product name is itself the tie
label. -/
theorem c10_winner_scoring :
    (∀ c1 c2 : Comparison, c1.better_price = c2.better_price →
      c1.more_versatile = c2.more_versatile →
      c1.product_a_name = c2.product_a_name →
      c1.product_b_name = c2.product_b_name →
      determineWinner c1 = determineWinner c2) ∧
    (∀ c : Comparison,
      ((c.better_price = "product_a") ↔ ¬(c.more_versatile = "product_a")) →
      determineWinner c = "Tie - Both excellent choices") ∧
    (∀ c : Comparison, c.product_a_name ≠ "Tie - Both excellent choices" →
      c.product_b_name ≠ "Tie - Both excellent choices" →
      (determineWinner c = "Tie - Both excellent choices" ↔
        ((c.better_price = "product_a") ↔ ¬(c.more_versatile = "product_a")))) := by
  refine ⟨?_, ?_, ?_⟩
  · intro c1 c2 h1 h2 h3 h4
    simp [determineWinner, h1, h2, h3, h4]
  · intro c h
    by_cases hb : c.better_price = "product_a" <;>
      by_cases hv : c.more_versatile = "product_a"
    · simp [hb, hv] at h
    · simp [determineWinner, hb, hv]
    · simp [determineWinner, hb, hv]
    · simp [hb, hv] at h
  · intro c hA hB
    by_cases hb : c.better_price = "product_a" <;>
      by_cases hv : c.more_versatile = "product_a" <;>
      simp [determineWinner, hb, hv, hA, hB]

/-- A comparison with the side tags on different sides. -/
def splitSidesComparison : Comparison :=
  { product_a_name := "A", product_b_name := "B"
    price_a := 0, price_b := 0, price_diff := 0
    cheaper_product := "A", better_price := "product_a"
    concentration_a := 0, concentration_b := 0, concentration_diff := "0%"
    higher_concentration := "B"
    skin_type_a := "", skin_type_b := "", skin_type_match := ""
    ingredients_a := "", ingredients_b := "", ingredient_similarity := ""
    more_versatile := "product_b" }

/-- Concrete instance of the amended C10: different sides give the tie
label. -/
theorem c10_winner_scoring_witness :
    determineWinner splitSidesComparison = "Tie - Both excellent choices" :=
  c10_winner_scoring.2.1 splitSidesComparison (by decide)

end CompareEngine
